import Mathlib

/-!
Verification development for the RecomendedChartWS backend.

The definitions below are a shallow embedding of the repository's core
services:

* `DataFrameService.get_aggregated_data` and its helpers
  `_prepare_bar_line_data`, `_prepare_pie_data`, `_prepare_scatter_data`
  (src/app/services/dataframe_service.py),
* `DataFrameService.get_dataframe_summary` / `_classify_columns`,
* `MockRecommendationService.generate_recommendations`
  (src/app/services/mock_recommendation_service.py),
* `OpenAILLMClient.recommend` / `_parse_recommendations` /
  `_validate_recommendations` (src/app/clients/llm_client.py),
* `AIAnalysisService.recommend_chart_types`
  (src/app/services/ai_analysis_service.py).

Modelling conventions.  A pandas cell is a `Val`: a Python number
(`PyNum`, keeping the int/float distinction because `float(...)` casts are
observable), a string, or a missing value (`Val.null` stands for
NaN/None).  A DataFrame is a `Table`: a row count plus named, dtyped
columns of equal length (the dtype drives `_classify_columns`, exactly as
pandas dtypes do).  Fallible pandas operations are `Except String`
computations; the error strings summarise the Python exception raised.

Boundaries of the model, each marked again at the definition it concerns:
aggregation of non-numeric (object dtype) data — which pandas partially
supports, e.g. summing strings by concatenation — is modelled as an
error, as is `float(...)` applied to a numeric string; both are outside
every claim checked here.  Sorting of group keys of mixed numeric/string
type raises `TypeError` in pandas and is modelled as an error; when two
distinct fallible steps would both fail, the model does not promise to
report the same one of the two errors that CPython reaches first.
-/

/-- Python number: the embedding keeps the int/float distinction because
`float(...)` casts (and their absence) are observable in scatter payloads. -/
inductive PyNum where
  | int (i : Int)
  | float (q : Rat)
deriving DecidableEq, Repr

/-- Numeric value of a Python number (Python compares ints and floats by value). -/
def PyNum.toRat : PyNum → Rat
  | .int i => (i : Rat)
  | .float q => q

/-- Python addition on numbers: int + int stays int, anything else is float.
This mirrors the dtype behaviour of pandas sums (int column sums to int). -/
def PyNum.add : PyNum → PyNum → PyNum
  | .int a, .int b => .int (a + b)
  | a, b => .float (a.toRat + b.toRat)

/-- A pandas cell: missing (NaN/None), a number, or a string. -/
inductive Val where
  | null
  | num (n : PyNum)
  | str (s : String)
deriving DecidableEq, Repr

/-- True for the missing value. -/
def Val.isNull : Val → Bool
  | .null => true
  | _ => false

/-- True for numeric cells. -/
def Val.isNum : Val → Bool
  | .num _ => true
  | _ => false

/-- True for string cells. -/
def Val.isStr : Val → Bool
  | .str _ => true
  | _ => false

/-- Python equality between cells, as used by pandas when grouping keys:
numbers compare by value (`3 == 3.0`), strings by content, and values of
different kinds are unequal. -/
def Val.pyEq : Val → Val → Bool
  | .null, .null => true
  | .num a, .num b => decide (a.toRat = b.toRat)
  | .str a, .str b => decide (a = b)
  | _, _ => false

/-- Lexicographic comparison of strings by Unicode code point, as Python
compares strings.  Defined on character lists so that it reduces in the
kernel. -/
def charListLe : List Char → List Char → Bool
  | [], _ => true
  | _ :: _, [] => false
  | a :: as, b :: bs =>
    if a.toNat < b.toNat then true
    else if b.toNat < a.toNat then false
    else charListLe as bs

/-- Order used when pandas sorts group keys (`groupby(sort=True)` followed by
`sort_values`): numbers by value, strings lexicographically.  The
cross-kind cases never arise for the homogeneous columns the theorems
quantify over — pandas raises `TypeError` there, which the pipeline below
models through the `valsComparable` guard. -/
def Val.le : Val → Val → Bool
  | .null, _ => true
  | _, .null => false
  | .num a, .num b => decide (a.toRat ≤ b.toRat)
  | .num _, .str _ => true
  | .str _, .num _ => false
  | .str a, .str b => charListLe a.data b.data

/-- Python `str(...)` of a cell, used by `astype(str)` on the label column.
Floats with denominator 1 print as Python prints them (`"15.0"`); the
printing of non-dyadic rationals has no Python counterpart and is given a
harmless placeholder form — no claim evaluates it. -/
def Val.pyStr : Val → String
  | .null => "nan"
  | .num (.int i) => toString i
  | .num (.float q) =>
    if q.den == 1 then toString q.num ++ ".0" else toString q.num ++ "/" ++ toString q.den
  | .str s => s

/-- Pandas dtype classes, as far as `_classify_columns` distinguishes them:
`is_numeric_dtype`, `is_datetime64_any_dtype`, `== 'object'`, and the rest. -/
inductive Dtype where
  | numeric
  | datetime
  | object
  | other
deriving DecidableEq, Repr

/-- One DataFrame column: its name, pandas dtype and cell values. -/
structure Col where
  name : String
  dtype : Dtype
  values : List Val
deriving Repr

/-- A DataFrame: a row count and named columns.  A well-formed table has
`values.length = nRows` for every column and distinct column names; the
theorems state exactly the well-formedness they need. -/
structure Table where
  nRows : Nat
  cols : List Col

/-- Values of a named column, `none` when the column is absent (pandas
`KeyError`). -/
def Table.colValues (t : Table) (c : String) : Option (List Val) :=
  (t.cols.find? (fun col => col.name == c)).map Col.values

/-- Membership test used by the `x_axis not in df.columns` validation. -/
def Table.hasCol (t : Table) (c : String) : Bool :=
  (t.cols.find? (fun col => col.name == c)).isSome

/-- Python truthiness of the optional `y_axis` request field: `None` and the
empty string are falsy (`if y_axis:` / `if value_col:` in the source). -/
def optTruthy : Option String → Bool
  | none => false
  | some s => s != ""

/-- Non-null cells of a column (`dropna` on a single column, and the
`skipna` behaviour of the aggregations). -/
def dropNull (vs : List Val) : List Val :=
  vs.filter (fun v => !v.isNull)

/-- First-occurrence deduplication up to Python equality, with the already
kept values accumulated in `seen`.  This is how the pandas grouping
hashtable collects distinct keys. -/
def pyDedupAux (seen : List Val) : List Val → List Val
  | [] => []
  | v :: vs =>
    if seen.any (fun s => s.pyEq v) then pyDedupAux seen vs
    else v :: pyDedupAux (v :: seen) vs

/-- Distinct values of a list in first-occurrence order, up to Python
equality. -/
def pyDedup (vs : List Val) : List Val :=
  pyDedupAux [] vs

/-- Distinct non-null values of the grouping column (`groupby` drops NaN
keys by default). -/
def groupKeys (xs : List Val) : List Val :=
  pyDedup (dropNull xs)

/-- The y-values of the group keyed by `k`: second components of the rows
whose x-value equals `k` under Python equality, in original row order. -/
def groupYs (xs ys : List Val) (k : Val) : List Val :=
  ((xs.zip ys).filter (fun p => p.1.pyEq k)).map Prod.snd

/-- Number of rows in the group keyed by `k` (`groupby(...).size()`). -/
def groupSize (xs : List Val) (k : Val) : Nat :=
  (xs.filter (fun v => v.pyEq k)).length

/-- Group keys can be ordered without a pandas `TypeError` exactly when they
are all numeric or all strings (§3 of the spec guarantees this for
well-formed tables: columns hold a uniform scalar kind). -/
def valsComparable (vs : List Val) : Bool :=
  vs.all Val.isNum || vs.all Val.isStr

/-- The key order as a binary relation, for `List.insertionSort`. -/
def valLeP (a b : Val) : Prop := Val.le a b = true

instance : DecidableRel valLeP :=
  fun a b => inferInstanceAs (Decidable (Val.le a b = true))

/-- Ascending sort of the group keys (`groupby(sort=True)` and the later
`sort_values(x_axis)` both order the groups this way). -/
def sortKeys (ks : List Val) : List Val :=
  List.insertionSort valLeP ks

/-- The numbers among a list of cells. -/
def numsOf (vs : List Val) : List PyNum :=
  vs.filterMap (fun v => match v with | .num n => some n | _ => none)

/-- Sum with Python addition, starting from int 0 (pandas sum of an empty
or all-null group is 0). -/
def sumNums (ns : List PyNum) : PyNum :=
  ns.foldl PyNum.add (.int 0)

/-- Largest number of a non-empty list (ties between an int and an equal
float are unobservable in any claim). -/
def maxNums : List PyNum → Option PyNum
  | [] => none
  | n :: ns => some (ns.foldl (fun acc m => if decide (acc.toRat < m.toRat) then m else acc) n)

/-- Smallest number of a non-empty list. -/
def minNums : List PyNum → Option PyNum
  | [] => none
  | n :: ns => some (ns.foldl (fun acc m => if decide (m.toRat < acc.toRat) then m else acc) n)

/-- Value of one named aggregation over the members of a group, with pandas
`skipna` semantics: nulls are dropped first; `count` counts the non-null
members; `sum` of an empty group is 0; `mean`, `max` and `min` of an
all-null group are NaN (`Val.null`) — the case §4.3 of the spec leaves
implementation-defined.  `mean` always yields a float. -/
def aggValue (f : String) (ys : List Val) : Val :=
  let nn := dropNull ys
  let ns := numsOf nn
  if f == "count" then .num (.int nn.length)
  else if f == "sum" then .num (sumNums ns)
  else if f == "mean" then
    match ns with
    | [] => .null
    | _ => .num (.float ((ns.map PyNum.toRat).sum / (ns.length : Rat)))
  else if f == "max" then
    match maxNums ns with
    | some n => .num n
    | none => .null
  else if f == "min" then
    match minNums ns with
    | some n => .num n
    | none => .null
  else .null

/-- Named aggregation over a group.  Model boundary: pandas can aggregate
object-dtype data (summing strings concatenates them); no claim exercises
that, and the model reports an error for any non-null non-numeric member. -/
def aggNums (f : String) (ys : List Val) : Except String Val :=
  if (dropNull ys).any (fun v => !v.isNum) then
    .error "TypeError: aggregation over non-numeric values is outside the model"
  else .ok (aggValue f ys)

/-- The `{'sum': 'sum', 'mean': 'mean', 'count': 'count', 'max': 'max',
'min': 'min'}.get(aggregation, 'sum')` lookup of `_prepare_bar_line_data`. -/
def aggFuncLookupBar (a : String) : String :=
  if a == "sum" then "sum"
  else if a == "mean" then "mean"
  else if a == "count" then "count"
  else if a == "max" then "max"
  else if a == "min" then "min"
  else "sum"

/-- The `{'sum': 'sum', 'mean': 'mean', 'count': 'count'}.get(aggregation,
'sum')` lookup of `_prepare_pie_data`. -/
def aggFuncLookupPie (a : String) : String :=
  if a == "sum" then "sum"
  else if a == "mean" then "mean"
  else if a == "count" then "count"
  else "sum"

/-- Chart-ready payload, per chart family.  For bar/line the labels are the
stringified keys, for pie the raw key values (`tolist()` without
`astype(str)`); `data` holds the per-group records; scatter keeps the
float-cast pairs next to the raw (uncast) x/y value lists. -/
inductive ChartData where
  | barLine (labels : List String) (values : List Val) (data : List (Val × Val))
  | pie (labels : List Val) (values : List Val) (data : List (Val × Val))
  | scatter (data : List (Rat × Rat)) (xValues : List Val) (yValues : List Val)
deriving DecidableEq, Repr

/-- Error-propagating map, the sequencing a pandas per-group aggregation
performs. -/
def exceptMap {α β : Type} (f : α → Except String β) : List α → Except String (List β)
  | [] => .ok []
  | a :: as =>
    match f a with
    | .error e => .error e
    | .ok b =>
      match exceptMap f as with
      | .error e => .error e
      | .ok bs => .ok (b :: bs)

/-- Count branch of `_prepare_bar_line_data`:
`df.groupby(x_axis).size().reset_index(name=y_axis)` followed by
`sort_values(x_axis)` and payload assembly.  When `y_axis` equals `x_axis`
the `reset_index(name=y_axis)` call tries to insert a second column with
the index's name and pandas raises `ValueError: cannot insert ..., already
exists`; `y_axis = None` is fine (the value column is literally named
`None`). -/
def barLineCount (t : Table) (xAxis : String) (yAxis : Option String) : Except String ChartData :=
  match t.colValues xAxis with
  | none => .error ("KeyError: " ++ xAxis)
  | some xs =>
    if yAxis == some xAxis then
      .error "ValueError: cannot insert column, already exists"
    else if !valsComparable (groupKeys xs) then
      .error "TypeError: group keys are not comparable"
    else
      let ks := sortKeys (groupKeys xs)
      let vs := ks.map (fun k => Val.num (.int (groupSize xs k)))
      .ok (.barLine (ks.map Val.pyStr) vs (ks.zip vs))

/-- Aggregation branch of `_prepare_bar_line_data`:
`df.groupby(x_axis)[y_axis].agg(agg_func).reset_index()` followed by
`sort_values(x_axis)` and payload assembly.  `y_axis = None` raises
`KeyError`; `y_axis = x_axis` makes `reset_index` collide with the index
name (pandas `ValueError`). -/
def barLineAggCore (t : Table) (xAxis : String) (yAxis : Option String) (aggFunc : String) :
    Except String ChartData :=
  match yAxis with
  | none => .error "KeyError: None"
  | some y =>
    match t.colValues xAxis, t.colValues y with
    | some xs, some ys =>
      if y == xAxis then
        .error "ValueError: cannot insert column, already exists"
      else if !valsComparable (groupKeys xs) then
        .error "TypeError: group keys are not comparable"
      else
        let ks := sortKeys (groupKeys xs)
        match exceptMap (fun k => aggNums aggFunc (groupYs xs ys k)) ks with
        | .error e => .error e
        | .ok vs => .ok (.barLine (ks.map Val.pyStr) vs (ks.zip vs))
    | _, _ => .error "KeyError: column not found"

/-- `DataFrameService._prepare_bar_line_data`. -/
def prepareBarLineData (t : Table) (xAxis : String) (yAxis : Option String)
    (aggregation : String) : Except String ChartData :=
  if aggregation == "count" then barLineCount t xAxis yAxis
  else barLineAggCore t xAxis yAxis (aggFuncLookupBar aggregation)

/-- No-y branch of `_prepare_pie_data`:
`df[category_col].value_counts().reset_index()`.  Distinct non-null values
with their occurrence counts, ordered by descending count (pandas leaves
the tie order unspecified; the model uses a stable sort on the
first-occurrence list).  Since pandas 2.0 `value_counts()` names the
result Series `count` and its index after the original column, so for a
column itself named `count` the `reset_index()` call collides and raises
`ValueError: cannot insert count, already exists` — the same collision the
sibling branches hit for a column named `value`. -/
def pieValueCountsData (t : Table) (xAxis : String) : Except String ChartData :=
  match t.colValues xAxis with
  | none => .error ("KeyError: " ++ xAxis)
  | some xs =>
    if xAxis == "count" then
      .error "ValueError: cannot insert count, already exists"
    else
      let pairs := (groupKeys xs).map (fun k => (k, groupSize xs k))
      let sorted := List.insertionSort (fun a b : Val × Nat => b.2 ≤ a.2) pairs
      .ok (.pie (sorted.map Prod.fst)
            (sorted.map (fun p => Val.num (.int p.2)))
            (sorted.map (fun p => (p.1, Val.num (.int p.2)))))

/-- Count branch of `_prepare_pie_data` (y given, aggregation `count`):
`df.groupby(category_col).size().reset_index(name='value')`.  When the
category column is itself named `value` the `reset_index(name='value')`
collides with the index name and pandas raises. -/
def pieCountData (t : Table) (xAxis : String) : Except String ChartData :=
  match t.colValues xAxis with
  | none => .error ("KeyError: " ++ xAxis)
  | some xs =>
    if xAxis == "value" then
      .error "ValueError: cannot insert value, already exists"
    else if !valsComparable (groupKeys xs) then
      .error "TypeError: group keys are not comparable"
    else
      let ks := sortKeys (groupKeys xs)
      let vs := ks.map (fun k => Val.num (.int (groupSize xs k)))
      .ok (.pie ks vs (ks.zip vs))

/-- Aggregation branch of `_prepare_pie_data` (y given):
`df.groupby(category_col)[value_col].agg(agg_func).reset_index(name='value')`,
group order ascending by key (`groupby(sort=True)`). -/
def pieAggCore (t : Table) (xAxis yCol : String) (aggFunc : String) : Except String ChartData :=
  match t.colValues xAxis, t.colValues yCol with
  | some xs, some ys =>
    if xAxis == "value" then
      .error "ValueError: cannot insert value, already exists"
    else if !valsComparable (groupKeys xs) then
      .error "TypeError: group keys are not comparable"
    else
      let ks := sortKeys (groupKeys xs)
      match exceptMap (fun k => aggNums aggFunc (groupYs xs ys k)) ks with
      | .error e => .error e
      | .ok vs => .ok (.pie ks vs (ks.zip vs))
  | _, _ => .error "KeyError: column not found"

/-- `DataFrameService._prepare_pie_data`. -/
def preparePieData (t : Table) (xAxis : String) (yAxis : Option String)
    (aggregation : String) : Except String ChartData :=
  if optTruthy yAxis then
    if aggregation == "count" then pieCountData t xAxis
    else pieAggCore t xAxis (yAxis.getD "") (aggFuncLookupPie aggregation)
  else pieValueCountsData t xAxis

/-- Rows of the two selected columns with both values present
(`df[[x_axis, y_axis]].dropna()`), in original row order. -/
def cleanPairs (xs ys : List Val) : List (Val × Val) :=
  (xs.zip ys).filter (fun p => !p.1.isNull && !p.2.isNull)

/-- Python `float(...)` on a cell.  Model boundary: `float` of a numeric
string succeeds in Python but is modelled as an error (no claim feeds
strings to scatter); the null case is unreachable behind `dropna`. -/
def Val.toFloatE : Val → Except String Rat
  | .num n => .ok n.toRat
  | .str _ => .error "ValueError: could not convert string to float"
  | .null => .error "nan"

/-- `DataFrameService._prepare_scatter_data`.  Selecting the same column for
both axes (`df[[x, x]]`) duplicates it, after which `float(row[x])`
receives a two-element Series and pandas raises `TypeError` (and the
`tolist()` calls would fail likewise); the model reports that error. -/
def prepareScatterData (t : Table) (xAxis : String) (yAxis : Option String) :
    Except String ChartData :=
  match yAxis with
  | none => .error "KeyError: None"
  | some yc =>
    match t.colValues xAxis, t.colValues yc with
    | some xs, some ys =>
      if yc == xAxis then
        .error "TypeError: cannot convert the series to float"
      else
        let clean := cleanPairs xs ys
        match exceptMap (fun p => do
            let a ← Val.toFloatE p.1
            let b ← Val.toFloatE p.2
            pure (a, b)) clean with
        | .error e => .error e
        | .ok pts => .ok (.scatter pts (clean.map Prod.fst) (clean.map Prod.snd))
    | _, _ => .error "KeyError: column not found"

/-- `DataFrameService.get_aggregated_data`: column validation (skipped for a
falsy `y_axis`), then dispatch on the chart type. -/
def getAggregatedData (t : Table) (xAxis : String) (yAxis : Option String)
    (chartType : String) (aggregation : String) : Except String ChartData :=
  if !t.hasCol xAxis then
    .error ("ValueError: Columna " ++ xAxis ++ " no encontrada en el DataFrame")
  else if optTruthy yAxis && !t.hasCol (yAxis.getD "") then
    .error ("ValueError: Columna " ++ yAxis.getD "" ++ " no encontrada en el DataFrame")
  else if chartType == "pie" then preparePieData t xAxis yAxis aggregation
  else if chartType == "bar" || chartType == "line" then
    prepareBarLineData t xAxis yAxis aggregation
  else if chartType == "scatter" then prepareScatterData t xAxis yAxis
  else .error ("ValueError: Tipo de grafico no soportado: " ++ chartType)

/-- Non-null count of a column (`.count()` / complement of `isnull().sum()`). -/
def nullCountCol (vs : List Val) : Nat :=
  (vs.filter Val.isNull).length

/-- Distinct non-null values of a column (`Series.nunique()`). -/
def nuniqueCol (vs : List Val) : Nat :=
  (pyDedup (dropNull vs)).length

/-- Classification of one column by `DataFrameService._classify_columns`:
numeric and datetime dtypes by dtype; object dtype by the cardinality
quotient `nunique / len(df)`.  That quotient is a plain Python integer
division: with zero rows it raises `ZeroDivisionError` — there is no
zero-row guard in the source. -/
def classifyColumn (nRows : Nat) (c : Col) : Except String String :=
  match c.dtype with
  | .numeric => .ok "numeric"
  | .datetime => .ok "datetime"
  | .object =>
    if nRows == 0 then .error "ZeroDivisionError: division by zero"
    else .ok (if (nuniqueCol c.values : Rat) / (nRows : Rat) < (1 : Rat) / 2
              then "categorical" else "text")
  | .other => .ok "other"

/-- `DataFrameService._classify_columns` over all columns. -/
def classifyColumns (t : Table) : Except String (List (String × String)) :=
  exceptMap (fun c => (classifyColumn t.nRows c).map (fun s => (c.name, s))) t.cols

/-- The summary fields consumed by the claims under verification.  The
source dict also carries `dtypes`, `describe`, `info`, `memory_usage` and
`sample_data`; none of the claims refers to them and they are omitted
here. -/
structure DfSummary where
  columns : List String
  shapeRows : Nat
  shapeCols : Nat
  nullCounts : List (String × Nat)
  nullPercentages : List (String × Val)
  columnTypes : List (String × String)
deriving DecidableEq, Repr

/-- `DataFrameService.get_dataframe_summary`.  `null_percentages` divides a
pandas Series by `len(df)`, which under numpy semantics yields NaN rather
than raising when the table is empty; `_classify_columns`, by contrast,
divides plain ints and propagates its `ZeroDivisionError`. -/
def getDataframeSummary (t : Table) : Except String DfSummary :=
  match classifyColumns t with
  | .error e => .error e
  | .ok ctypes =>
    .ok { columns := t.cols.map Col.name
          shapeRows := t.nRows
          shapeCols := t.cols.length
          nullCounts := t.cols.map (fun c => (c.name, nullCountCol c.values))
          nullPercentages := t.cols.map (fun c =>
            (c.name, if t.nRows == 0 then Val.null
                     else Val.num (.float ((nullCountCol c.values : Rat) / (t.nRows : Rat) * 100))))
          columnTypes := ctypes }

/-- Axis parameters of one recommendation (`parameters` dict with `x_axis`
and optional `y_axis`). -/
structure RecParams where
  xAxis : String
  yAxis : Option String
deriving DecidableEq, Repr

/-- One chart recommendation as built by the mock service. -/
structure Rec where
  title : String
  chartType : String
  parameters : RecParams
  insight : String
deriving DecidableEq, Repr

/-- Column names of a given classification, in `column_types` iteration
(= insertion) order, as the comprehensions over `column_types.items()` do. -/
def typedCols (s : DfSummary) (ty : String) : List String :=
  (s.columnTypes.filter (fun p => p.2 == ty)).map Prod.fst

/-- Rules 1-5 of `MockRecommendationService.generate_recommendations`, each
appending at most one recommendation; rule 5 skips its bar chart when the
(x_axis, y_axis) pair is already present among the earlier ones. -/
def mockBaseRecs (s : DfSummary) : List Rec :=
  let numericCols := typedCols s "numeric"
  let categoricalCols := typedCols s "categorical"
  let datetimeCols := typedCols s "datetime"
  let r1 : List Rec :=
    match categoricalCols, numericCols with
    | catCol :: _, numCol :: _ =>
      [{ title := numCol ++ " por " ++ catCol
         chartType := "bar"
         parameters := { xAxis := catCol, yAxis := some numCol }
         insight := "Este grafico de barras compara " ++ numCol ++
           " en diferentes categorias de " ++ catCol ++
           ", mostrando cuales son el mejor desempeno." }]
    | _, _ => []
  let r2 : List Rec :=
    match datetimeCols, numericCols with
    | dtCol :: _, numCol :: _ =>
      [{ title := "Tendencia de " ++ numCol ++ " en el tiempo"
         chartType := "line"
         parameters := { xAxis := dtCol, yAxis := some numCol }
         insight := "Este grafico de lineas muestra como cambia " ++ numCol ++
           " a lo largo del tiempo, destacando tendencias y patrones en los datos temporales." }]
    | _, _ => []
  let r3 : List Rec :=
    match categoricalCols with
    | catCol :: _ =>
      match numericCols with
      | numCol :: _ =>
        [{ title := "Distribucion de " ++ catCol
           chartType := "pie"
           parameters := { xAxis := catCol, yAxis := some numCol }
           insight := "Este grafico circular muestra la distribucion proporcional de " ++
             catCol ++ " basada en " ++ numCol ++
             ", facilitando la visualizacion de proporciones relativas." }]
      | [] =>
        [{ title := "Distribucion de " ++ catCol
           chartType := "pie"
           parameters := { xAxis := catCol, yAxis := none }
           insight := "Este grafico circular muestra la distribucion de categorias de " ++
             catCol ++ ", revelando la frecuencia relativa de cada categoria." }]
    | [] => []
  let r4 : List Rec :=
    match numericCols with
    | xCol :: yCol :: _ =>
      [{ title := yCol ++ " vs " ++ xCol
         chartType := "scatter"
         parameters := { xAxis := xCol, yAxis := some yCol }
         insight := "Este grafico de dispersion revela la relacion entre " ++ xCol ++
           " e " ++ yCol ++
           ", ayudando a identificar correlaciones o patrones entre estas variables numericas." }]
    | _ => []
  let first4 := r1 ++ r2 ++ r3 ++ r4
  let r5 : List Rec :=
    if numericCols.length > 1 then
      match categoricalCols, numericCols.getLast? with
      | catCol :: _, some numCol =>
        if first4.any (fun r =>
            r.parameters.xAxis == catCol && r.parameters.yAxis == some numCol) then []
        else
          [{ title := "Comparacion de " ++ numCol ++ " por " ++ catCol
             chartType := "bar"
             parameters := { xAxis := catCol, yAxis := some numCol }
             insight := "Esta visualizacion compara valores de " ++ numCol ++
               " en diferentes grupos de " ++ catCol ++
               ", mostrando variaciones e identificando los principales." }]
      | _, _ => []
    else []
  first4 ++ r5

/-- The generic fallback recommendation over the first two columns, emitted
only when no rule fired and the table has at least two columns. -/
def fallbackRecs (cols : List String) : List Rec :=
  match cols with
  | c0 :: c1 :: _ =>
    [{ title := c0 ++ " vs " ++ c1
       chartType := "bar"
       parameters := { xAxis := c0, yAxis := some c1 }
       insight := "Grafico de barras mostrando la relacion entre las primeras dos columnas de tu conjunto de datos." }]
  | _ => []

/-- `MockRecommendationService.generate_recommendations`: the five rules,
the generic fallback when they produced nothing, then the cap at five. -/
def generateRecommendations (s : DfSummary) : List Rec :=
  let base := mockBaseRecs s
  (if base.isEmpty then fallbackRecs s.columns else base).take 5

/-- JSON values, as far as the recommendation pipeline inspects them. -/
inductive JVal where
  | jnull
  | jbool (b : Bool)
  | jnum (q : Rat)
  | jstr (s : String)
  | jarr (items : List JVal)
  | jobj (fields : List (String × JVal))

/-- The four keys `_validate_recommendations` requires. -/
def requiredKeys : List String :=
  ["title", "chart_type", "parameters", "insight"]

/-- Check of one entry: the Python code tests
`{"title","chart_type","parameters","insight"}.issubset(rec)`, i.e. the
four keys must be PRESENT among the entry's keys — extra keys pass.  A
non-dict entry always fails (iterating it yields no matching elements, or
raises, and either way `recommend` turns that into a client error). -/
def hasRequiredKeys : JVal → Bool
  | .jobj fs => requiredKeys.all (fun k => fs.any (fun p => p.1 == k))
  | _ => false

/-- `OpenAILLMClient._validate_recommendations`: every entry must pass
`hasRequiredKeys`, otherwise `LLMClientError` invalidates the whole batch. -/
def validateRecommendations (recs : List JVal) : Except String Unit :=
  if recs.all hasRequiredKeys then .ok ()
  else .error "Estructura de recomendacion invalida"

/-- `OpenAILLMClient._parse_recommendations` after `json.loads`: a JSON
array is the batch; an object with a `recommendations` array unwraps it
(any non-array `recommendations` value fails validation downstream, which
the model folds into an error here); anything else is wrapped as a
single-entry batch. -/
def parseRecommendations (j : JVal) : Except String (List JVal) :=
  match j with
  | .jarr xs => .ok xs
  | .jobj fs =>
    match fs.lookup "recommendations" with
    | some (.jarr xs) => .ok xs
    | some _ => .error "Estructura de recomendacion invalida"
    | none => .ok [.jobj fs]
  | other => .ok [other]

/-- `OpenAILLMClient.recommend`, as a function of the external exchange's
outcome: `.error` is any transport/HTTP/format failure of
`_make_api_call`, `.ok none` a response body `json.loads` cannot parse,
`.ok (some j)` a successfully parsed body.  Every failure anywhere in the
pipeline surfaces as `LLMClientError` (the `Except.error` cases). -/
def clientRecommend (api : Except String (Option JVal)) : Except String (List JVal) :=
  match api with
  | .error e => .error e
  | .ok none => .error "El LLM no devolvio JSON valido"
  | .ok (some j) =>
    match parseRecommendations j with
    | .error e => .error e
    | .ok recs =>
      match validateRecommendations recs with
      | .error e => .error e
      | .ok _ => .ok recs

/-- A mock recommendation as the JSON-shaped dict Python returns. -/
def Rec.toJVal (r : Rec) : JVal :=
  .jobj [("title", .jstr r.title),
         ("chart_type", .jstr r.chartType),
         ("parameters", .jobj (("x_axis", JVal.jstr r.parameters.xAxis) ::
            (match r.parameters.yAxis with
             | some y => [("y_axis", JVal.jstr y)]
             | none => []))),
         ("insight", .jstr r.insight)]

/-- Configuration the orchestrator reads once at construction
(`AIAnalysisService.__init__`): the raw `USE_MOCK_RECOMMENDATIONS` and
`LLM_API_KEY` environment values (`none` = unset). -/
structure OrchestratorConfig where
  useMockRecommendationsEnv : Option String
  llmApiKey : Option String

/-- Lowercase of an ASCII letter, for the env-flag comparison. -/
def lowerChar (c : Char) : Char :=
  if 65 ≤ c.toNat ∧ c.toNat ≤ 90 then Char.ofNat (c.toNat + 32) else c

/-- Python `str.lower()` (ASCII part, which is all the flag needs). -/
def lowerString (s : String) : String :=
  String.mk (s.data.map lowerChar)

/-- `os.getenv('USE_MOCK_RECOMMENDATIONS', 'false').lower() == 'true'`. -/
def envFlagTrue (v : Option String) : Bool :=
  lowerString (v.getD "false") == "true"

/-- `bool(os.getenv('LLM_API_KEY'))`: unset and empty are both falsy. -/
def hasApiKey (c : OrchestratorConfig) : Bool :=
  match c.llmApiKey with
  | none => false
  | some s => s != ""

/-- `self.use_mock = use_mock_env or not has_api_key`. -/
def configUseMock (c : OrchestratorConfig) : Bool :=
  envFlagTrue c.useMockRecommendationsEnv || !hasApiKey c

/-- Result of `AIAnalysisService.recommend_chart_types`, together with
whether the external advisory service was contacted at all. -/
structure RecommendResult where
  recs : List JVal
  attemptedExternal : Bool

/-- `AIAnalysisService.recommend_chart_types`: in mock mode return the
heuristic's output without any external call; otherwise attempt the call
and on any `LLMClientError` (or unexpected exception) fall back to the
heuristic instead of propagating. -/
def recommendChartTypes (c : OrchestratorConfig) (api : Except String (Option JVal))
    (s : DfSummary) : RecommendResult :=
  if configUseMock c then
    { recs := (generateRecommendations s).map Rec.toJVal, attemptedExternal := false }
  else
    match clientRecommend api with
    | .ok recs => { recs := recs, attemptedExternal := true }
    | .error _ =>
      { recs := (generateRecommendations s).map Rec.toJVal, attemptedExternal := true }

/-- Titles of a batch of JSON recommendations, a projection used to compare
batches without a decidable equality on `JVal`. -/
def recTitles (l : List JVal) : List String :=
  l.filterMap (fun j =>
    match j with
    | .jobj fs =>
      match fs.lookup "title" with
      | some (.jstr s) => some s
      | _ => none
    | _ => none)

/-- Python equality is reflexive. -/
theorem pyEq_refl (v : Val) : v.pyEq v = true := by
  cases v with
  | null => rfl
  | num n => simp [Val.pyEq]
  | str s => simp [Val.pyEq]

/-- Python equality is symmetric. -/
theorem pyEq_comm (a b : Val) : a.pyEq b = b.pyEq a := by
  cases a <;> cases b <;> simp [Val.pyEq, eq_comm]

/-- Total order: string comparison is total. -/
theorem charListLe_total : ∀ as bs, charListLe as bs = true ∨ charListLe bs as = true := by
  intro as
  induction as with
  | nil => intro bs; left; rfl
  | cons a as ih =>
    intro bs
    cases bs with
    | nil => right; rfl
    | cons b bs =>
      simp only [charListLe]
      rcases Nat.lt_trichotomy a.toNat b.toNat with h | h | h
      · left; simp [h]
      · rcases ih bs with h2 | h2 <;> simp [h, Nat.lt_irrefl, h2]
      · right; simp [h, Nat.lt_asymm h]

/-- Transitivity of the string comparison. -/
theorem charListLe_trans : ∀ as bs cs, charListLe as bs = true → charListLe bs cs = true →
    charListLe as cs = true := by
  intro as
  induction as with
  | nil => intro bs cs _ _; rfl
  | cons a as ih =>
    intro bs cs h1 h2
    cases bs with
    | nil => simp [charListLe] at h1
    | cons b bs =>
      cases cs with
      | nil => simp [charListLe] at h2
      | cons c cs =>
        simp only [charListLe] at h1 h2 ⊢
        by_cases hab : a.toNat < b.toNat
        · have hbc' : b.toNat ≤ c.toNat := by
            by_cases hbc : b.toNat < c.toNat
            · exact Nat.le_of_lt hbc
            · by_cases hcb : c.toNat < b.toNat
              · simp [hbc, hcb] at h2
              · omega
          have hac : a.toNat < c.toNat := by omega
          simp [hac]
        · by_cases hba : b.toNat < a.toNat
          · simp [hab, hba] at h1
          · have h1' : charListLe as bs = true := by simpa [hab, hba] using h1
            by_cases hbc : b.toNat < c.toNat
            · have hac : a.toNat < c.toNat := by omega
              simp [hac]
            · by_cases hcb : c.toNat < b.toNat
              · simp [hbc, hcb] at h2
              · have h2' : charListLe bs cs = true := by simpa [hbc, hcb] using h2
                have hac : ¬ a.toNat < c.toNat := by omega
                have hca : ¬ c.toNat < a.toNat := by omega
                simp [hac, hca, ih bs cs h1' h2']

/-- The key order is total. -/
theorem valLe_total (a b : Val) : Val.le a b = true ∨ Val.le b a = true := by
  cases a with
  | null => left; cases b <;> rfl
  | num x =>
    cases b with
    | null => right; rfl
    | num y => simp only [Val.le, decide_eq_true_eq]; exact le_total _ _
    | str s => left; rfl
  | str s =>
    cases b with
    | null => right; rfl
    | num y => right; rfl
    | str u => exact charListLe_total s.data u.data

/-- The key order is transitive. -/
theorem valLe_trans (a b c : Val) (h1 : Val.le a b = true) (h2 : Val.le b c = true) :
    Val.le a c = true := by
  cases a with
  | null => cases c <;> rfl
  | num x =>
    cases b with
    | null => simp [Val.le] at h1
    | num y =>
      cases c with
      | null => simp [Val.le] at h2
      | num z =>
        simp only [Val.le, decide_eq_true_eq] at h1 h2 ⊢
        exact le_trans h1 h2
      | str s => rfl
    | str s =>
      cases c with
      | null => simp [Val.le] at h2
      | num z => simp [Val.le] at h2
      | str u => rfl
  | str s =>
    cases b with
    | null => simp [Val.le] at h1
    | num y => simp [Val.le] at h1
    | str u =>
      cases c with
      | null => simp [Val.le] at h2
      | num z => simp [Val.le] at h2
      | str w => exact charListLe_trans s.data u.data w.data h1 h2

instance : IsTotal Val valLeP := ⟨fun a b => valLe_total a b⟩

instance : IsTrans Val valLeP := ⟨fun a b c => valLe_trans a b c⟩

/-- Every kept value comes from the input list. -/
theorem pyDedupAux_subset {seen : List Val} : ∀ {l v}, v ∈ pyDedupAux seen l → v ∈ l := by
  intro l
  induction l generalizing seen with
  | nil => intro v h; simp [pyDedupAux] at h
  | cons w ws ih =>
    intro v h
    simp only [pyDedupAux] at h
    by_cases hw : seen.any (fun s => s.pyEq w) = true
    · simp only [hw, if_true] at h
      exact List.mem_cons_of_mem _ (ih h)
    · simp only [hw, if_false, Bool.not_eq_true] at h
      rcases List.mem_cons.mp h with h | h
      · exact h ▸ List.mem_cons_self _ _
      · exact List.mem_cons_of_mem _ (ih h)

/-- Values kept by the deduplication were not pyEq-represented in `seen`. -/
theorem pyDedupAux_not_seen : ∀ {seen : List Val} {l k}, k ∈ pyDedupAux seen l →
    seen.any (fun s => s.pyEq k) = false := by
  intro seen l
  induction l generalizing seen with
  | nil => intro k h; simp [pyDedupAux] at h
  | cons w ws ih =>
    intro k h
    simp only [pyDedupAux] at h
    by_cases hw : seen.any (fun s => s.pyEq w) = true
    · simp only [hw, if_true] at h
      exact ih h
    · simp only [hw, if_false] at h
      rcases List.mem_cons.mp h with h | h
      · subst h
        simpa using hw
      · have := ih h
        simp only [List.any_cons, Bool.or_eq_false_iff] at this
        exact this.2

/-- The deduplicated list is pairwise pyEq-distinct. -/
theorem pyDedupAux_pairwise (seen : List Val) (l : List Val) :
    List.Pairwise (fun a b => a.pyEq b = false) (pyDedupAux seen l) := by
  induction l generalizing seen with
  | nil => exact List.Pairwise.nil
  | cons w ws ih =>
    simp only [pyDedupAux]
    by_cases hw : seen.any (fun s => s.pyEq w) = true
    · simp only [hw, if_true]
      exact ih seen
    · simp only [hw, if_false]
      refine List.Pairwise.cons ?_ (ih (w :: seen))
      intro k hk
      have := pyDedupAux_not_seen hk
      simp only [List.any_cons, Bool.or_eq_false_iff] at this
      exact this.1

/-- Every input value is pyEq-represented among the kept ones. -/
theorem pyDedupAux_covers : ∀ {seen : List Val} {l v}, v ∈ l →
    seen.any (fun s => s.pyEq v) = false → ∃ k ∈ pyDedupAux seen l, k.pyEq v = true := by
  intro seen l
  induction l generalizing seen with
  | nil => intro v h; simp at h
  | cons w ws ih =>
    intro v hv hseen
    simp only [pyDedupAux]
    by_cases hw : seen.any (fun s => s.pyEq w) = true
    · simp only [hw, if_true]
      rcases List.mem_cons.mp hv with h | h
      · subst h
        rw [hseen] at hw
        exact absurd hw (by simp)
      · exact ih h hseen
    · simp only [hw, if_false]
      rcases List.mem_cons.mp hv with h | h
      · subst h
        exact ⟨v, List.mem_cons_self _ _, pyEq_refl v⟩
      · by_cases hwv : w.pyEq v = true
        · exact ⟨w, List.mem_cons_self _ _, hwv⟩
        · have hseen' : (w :: seen).any (fun s => s.pyEq v) = false := by
            simp only [List.any_cons, Bool.or_eq_false_iff]
            exact ⟨by simpa using hwv, hseen⟩
          rcases ih h hseen' with ⟨k, hk, hkv⟩
          exact ⟨k, List.mem_cons_of_mem _ hk, hkv⟩

/-- Group keys are values of the column and non-null. -/
theorem mem_groupKeys {xs : List Val} {k : Val} (h : k ∈ groupKeys xs) :
    k ∈ xs ∧ k.isNull = false := by
  have h1 : k ∈ dropNull xs := pyDedupAux_subset h
  have h2 := List.mem_filter.mp h1
  exact ⟨h2.1, by simpa using h2.2⟩

/-- Every non-null value of the column is represented by a group key. -/
theorem groupKeys_covers {xs : List Val} {v : Val} (hv : v ∈ xs) (hn : v.isNull = false) :
    ∃ k ∈ groupKeys xs, k.pyEq v = true :=
  pyDedupAux_covers (List.mem_filter.mpr ⟨hv, by simp [hn]⟩) rfl

/-- Distinct group keys are pyEq-distinct. -/
theorem groupKeys_pairwise (xs : List Val) :
    List.Pairwise (fun a b => a.pyEq b = false) (groupKeys xs) :=
  pyDedupAux_pairwise [] (dropNull xs)

/-- Sorting keeps membership. -/
theorem mem_sortKeys {l : List Val} {a : Val} : a ∈ sortKeys l ↔ a ∈ l :=
  (List.perm_insertionSort valLeP l).mem_iff

/-- The sorted keys are ascending. -/
theorem sorted_sortKeys (l : List Val) : List.Sorted valLeP (sortKeys l) :=
  List.sorted_insertionSort valLeP l

/-- Sorting keeps pairwise pyEq-distinctness. -/
theorem pairwise_sortKeys {l : List Val}
    (h : List.Pairwise (fun a b => a.pyEq b = false) l) :
    List.Pairwise (fun a b => a.pyEq b = false) (sortKeys l) :=
  ((List.perm_insertionSort valLeP l).pairwise_iff
    (fun hx => by rw [pyEq_comm]; exact hx)).mpr h

/-- Sorting keeps length. -/
theorem length_sortKeys (l : List Val) : (sortKeys l).length = l.length :=
  (List.perm_insertionSort valLeP l).length_eq

/-- When the elementwise computation succeeds everywhere, the sequenced map
succeeds with the pointwise results. -/
theorem exceptMap_ok {α β : Type} {f : α → Except String β} {g : α → β} :
    ∀ {l : List α}, (∀ a ∈ l, f a = .ok (g a)) → exceptMap f l = .ok (l.map g) := by
  intro l
  induction l with
  | nil => intro _; rfl
  | cons a as ih =>
    intro h
    simp only [exceptMap, h a (List.mem_cons_self _ _), ih (fun b hb => h b (List.mem_cons_of_mem _ hb)), List.map]

/-- Aggregation succeeds on numeric-or-null data. -/
theorem aggNums_ok {f : String} {ys : List Val}
    (h : ∀ v ∈ ys, v.isNull = true ∨ v.isNum = true) :
    aggNums f ys = .ok (aggValue f ys) := by
  have hany : (dropNull ys).any (fun v => !v.isNum) = false := by
    rw [List.any_eq_false]
    intro v hv
    have h2 := List.mem_filter.mp hv
    rcases h v h2.1 with hn | hn
    · exact absurd hn (by simpa using h2.2)
    · simp [hn]
  simp [aggNums, hany]

/-- Group members come from the y column. -/
theorem mem_groupYs {xs ys : List Val} {k v : Val} (h : v ∈ groupYs xs ys k) : v ∈ ys := by
  rcases List.mem_map.mp h with ⟨p, hp, rfl⟩
  have hz := List.mem_filter.mp hp
  exact (List.of_mem_zip hz.1).2

/-- A found column implies the membership validation passes. -/
theorem hasCol_of_colValues {t : Table} {c : String} {vs : List Val}
    (h : t.colValues c = some vs) : t.hasCol c = true := by
  unfold Table.colValues at h
  unfold Table.hasCol
  cases hf : t.cols.find? (fun col => col.name == c) with
  | none => rw [hf] at h; simp at h
  | some col => rfl

/-- The x column of the worked scenario table of §8 of the spec. -/
def regionXs : List Val := [.str "N", .str "S", .str "N"]

/-- The y column of the worked scenario table. -/
def regionYs : List Val := [.num (.int 10), .num (.int 20), .num (.int 5)]

/-- The scenario table
`[{"region":"N","sales":10},{"region":"S","sales":20},{"region":"N","sales":5}]`. -/
def regionSalesTable : Table :=
  ⟨3, [⟨"region", Dtype.object, regionXs⟩, ⟨"sales", Dtype.numeric, regionYs⟩]⟩

/-- A summary with no columns at all. -/
def emptySummary : DfSummary := ⟨[], 0, 0, [], [], []⟩

/-- A summary with two columns but no classified column types. -/
def twoColsSummary : DfSummary := ⟨["region", "sales"], 3, 2, [], [], []⟩

/-- A summary with one categorical and one numeric column. -/
def catNumSummary : DfSummary :=
  ⟨["region", "sales"], 3, 2, [], [], [("region", "categorical"), ("sales", "numeric")]⟩

/-- C2: the spec says summarize never fails on a well-formed table and that a
zero-row table classifies its non-numeric, non-datetime columns as
categorical through an explicit division-by-zero guard.  The code has no
such guard: `_classify_columns` computes `df[col].nunique() / len(df)`
with plain integers, so a zero-row table with an object-dtype column
makes `get_dataframe_summary` raise `ZeroDivisionError` instead of
returning a summary. -/
theorem c2_profile_zero_rows_crash :
    classifyColumns ⟨0, [⟨"name", Dtype.object, []⟩]⟩ =
      Except.error "ZeroDivisionError: division by zero" ∧
    getDataframeSummary ⟨0, [⟨"name", Dtype.object, []⟩]⟩ =
      Except.error "ZeroDivisionError: division by zero" :=
  ⟨rfl, rfl⟩

/-- Shared step: whenever the client pipeline reports an error, the
orchestrator answers with the heuristic's output. -/
theorem orchestratorFallsBack {c : OrchestratorConfig} {api : Except String (Option JVal)}
    {s : DfSummary} {e : String} (h : clientRecommend api = .error e) :
    (recommendChartTypes c api s).recs = (generateRecommendations s).map Rec.toJVal := by
  by_cases hm : configUseMock c = true
  · simp [recommendChartTypes, hm]
  · simp only [Bool.not_eq_true] at hm
    simp [recommendChartTypes, hm, h]

/-- C6: whenever the external advisory call fails in any way — transport
error, non-JSON response, or a response failing recommendation validation —
`recommend_chart_types` returns the fallback heuristic's output for the
summary; the failure never propagates (the function is total and its
result is the heuristic's). -/
theorem c6_external_failure_falls_back (c : OrchestratorConfig)
    (api : Except String (Option JVal)) (s : DfSummary) (e : String)
    (h : clientRecommend api = .error e) :
    (recommendChartTypes c api s).recs = (generateRecommendations s).map Rec.toJVal :=
  orchestratorFallsBack h

/-- C6 witness: a transport failure at a live configuration falls back to
the heuristic. -/
theorem c6_witness :
    (recommendChartTypes ⟨none, some "key"⟩ (.error "transport failure") emptySummary).recs =
      (generateRecommendations emptySummary).map Rec.toJVal :=
  c6_external_failure_falls_back ⟨none, some "key"⟩ (.error "transport failure")
    emptySummary "transport failure" rfl

/-- C7: when the orchestrator is explicitly configured for the fallback
(`USE_MOCK_RECOMMENDATIONS` true) or no advisory credential is configured,
it returns exactly the heuristic's output with no external call attempted. -/
theorem c7_mock_mode_no_external_call (c : OrchestratorConfig)
    (api : Except String (Option JVal)) (s : DfSummary)
    (h : envFlagTrue c.useMockRecommendationsEnv = true ∨ hasApiKey c = false) :
    recommendChartTypes c api s =
      { recs := (generateRecommendations s).map Rec.toJVal, attemptedExternal := false } := by
  have hm : configUseMock c = true := by
    rcases h with h | h <;> simp [configUseMock, h]
  simp [recommendChartTypes, hm]

/-- C7 witness: with no credential configured, the heuristic's output is
returned and the external service is not contacted, whatever it would have
answered. -/
theorem c7_witness :
    recommendChartTypes ⟨none, none⟩ (.ok (some (.jarr []))) catNumSummary =
      { recs := (generateRecommendations catNumSummary).map Rec.toJVal,
        attemptedExternal := false } :=
  c7_mock_mode_no_external_call ⟨none, none⟩ (.ok (some (.jarr []))) catNumSummary (Or.inr rfl)

/-- C5 (amended): each externally supplied entry must contain at least the
four required keys `{title, chart_type, parameters, insight}`; a batch
with an entry missing one of them is invalid as a whole and the
orchestrator falls back to the heuristic.  (Entries with all four keys
plus extras pass validation — see the counterexample.) -/
theorem c5_missing_key_invalidates_batch (recs : List JVal) (c : OrchestratorConfig)
    (s : DfSummary) (h : ∃ r ∈ recs, hasRequiredKeys r = false) :
    validateRecommendations recs = .error "Estructura de recomendacion invalida" ∧
    (recommendChartTypes c (.ok (some (.jarr recs))) s).recs =
      (generateRecommendations s).map Rec.toJVal := by
  have hall : recs.all hasRequiredKeys = false := by
    rcases h with ⟨r, hr, hfalse⟩
    exact List.all_eq_false.mpr ⟨r, hr, by simp [hfalse]⟩
  have hval : validateRecommendations recs = .error "Estructura de recomendacion invalida" := by
    simp [validateRecommendations, hall]
  have hcli : clientRecommend (.ok (some (.jarr recs))) =
      .error "Estructura de recomendacion invalida" := by
    simp [clientRecommend, parseRecommendations, hval]
  exact ⟨hval, orchestratorFallsBack hcli⟩

/-- A recommendation entry carrying the four required keys plus an extra
one. -/
def extraKeyRec : JVal :=
  .jobj [("title", .jstr "Ventas por region"), ("chart_type", .jstr "bar"),
         ("parameters", .jobj [("x_axis", .jstr "region")]), ("insight", .jstr "insight"),
         ("extra", .jstr "extra")]

/-- C5 counterexample: the claim says an entry must contain EXACTLY the four
required keys, an entry with the four keys plus an extra key invalidating
the batch.  The code checks `required.issubset(rec)`: the extra-key entry
passes validation, the batch is accepted, and the orchestrator returns it
instead of the heuristic's output. -/
theorem c5_counterexample :
    validateRecommendations [extraKeyRec] = .ok () ∧
    (recommendChartTypes ⟨none, some "key"⟩
        (.ok (some (.jarr [extraKeyRec]))) twoColsSummary).recs = [extraKeyRec] ∧
    recTitles [extraKeyRec] ≠
      recTitles ((generateRecommendations twoColsSummary).map Rec.toJVal) := by
  refine ⟨rfl, rfl, ?_⟩
  have h1 : recTitles [extraKeyRec] = ["Ventas por region"] := rfl
  have h2 : recTitles ((generateRecommendations twoColsSummary).map Rec.toJVal) =
      ["region vs sales"] := rfl
  rw [h1, h2]
  decide

/-- An entry missing three of the required keys. -/
def missingKeyRec : JVal := .jobj [("title", .jstr "t")]

/-- C5 witness: a batch whose entry misses a required key is rejected as a
whole and the orchestrator answers with the heuristic's output. -/
theorem c5_witness :
    validateRecommendations [missingKeyRec] = .error "Estructura de recomendacion invalida" ∧
    (recommendChartTypes ⟨none, some "key"⟩
        (.ok (some (.jarr [missingKeyRec]))) twoColsSummary).recs =
      (generateRecommendations twoColsSummary).map Rec.toJVal :=
  c5_missing_key_invalidates_batch [missingKeyRec] ⟨none, some "key"⟩ twoColsSummary
    ⟨missingKeyRec, List.mem_cons_self _ _, rfl⟩

/-- C8: the fallback heuristic is a pure, deterministic, total function of
the summary; its output has between 0 and 5 entries, is non-empty whenever
the table has at least two columns, and is empty only when the table has
fewer than two columns. -/
theorem c8_heuristic_pure_bounded (s : DfSummary) :
    (∀ s2 : DfSummary, s = s2 → generateRecommendations s = generateRecommendations s2) ∧
    (generateRecommendations s).length ≤ 5 ∧
    (2 ≤ s.columns.length → generateRecommendations s ≠ []) ∧
    (generateRecommendations s = [] → s.columns.length < 2) := by
  have hne : 2 ≤ s.columns.length → generateRecommendations s ≠ [] := by
    intro h2
    show (if (mockBaseRecs s).isEmpty then fallbackRecs s.columns else mockBaseRecs s).take 5 ≠ []
    by_cases hb : (mockBaseRecs s).isEmpty
    · rw [if_pos hb]
      cases hc : s.columns with
      | nil => rw [hc] at h2; simp at h2
      | cons c0 tl =>
        cases tl with
        | nil => rw [hc] at h2; simp at h2
        | cons c1 rest => simp [fallbackRecs]
    · rw [if_neg hb]
      cases hm : mockBaseRecs s with
      | nil => rw [hm] at hb; simp at hb
      | cons r rs => simp
  refine ⟨fun s2 h => h ▸ rfl, ?_, hne, ?_⟩
  · show ((if (mockBaseRecs s).isEmpty then fallbackRecs s.columns else mockBaseRecs s).take 5).length ≤ 5
    exact List.length_take_le 5 _
  · intro hempty
    by_contra hlt
    exact hne (by omega) hempty

/-- C8 witness: a two-column summary yields a non-empty list, and the empty
output of a column-less summary certifies that emptiness implies fewer
than two columns. -/
theorem c8_witness :
    generateRecommendations catNumSummary ≠ [] ∧ emptySummary.columns.length < 2 :=
  ⟨(c8_heuristic_pure_bounded catNumSummary).2.2.1 (by decide),
   (c8_heuristic_pure_bounded emptySummary).2.2.2 rfl⟩

/-- C10: an aggregation name outside the supported set is not rejected: for
bar/line any name outside {sum, mean, count, max, min}, and for pie with a
y axis any name outside {sum, mean, count}, the dictionary lookup
defaults to `'sum'` and the payload equals the `sum` payload. -/
theorem c10_unknown_aggregation_is_sum :
    (∀ (t : Table) (x : String) (y : Option String) (chart agg : String),
      (chart = "bar" ∨ chart = "line") →
      agg ≠ "sum" → agg ≠ "mean" → agg ≠ "count" → agg ≠ "max" → agg ≠ "min" →
      getAggregatedData t x y chart agg = getAggregatedData t x y chart "sum") ∧
    (∀ (t : Table) (x : String) (y : Option String) (agg : String),
      optTruthy y = true →
      agg ≠ "sum" → agg ≠ "mean" → agg ≠ "count" →
      getAggregatedData t x y "pie" agg = getAggregatedData t x y "pie" "sum") := by
  constructor
  · intro t x y chart agg hchart h1 h2 h3 h4 h5
    have e1 : (agg == "sum") = false := beq_eq_false_iff_ne.mpr h1
    have e2 : (agg == "mean") = false := beq_eq_false_iff_ne.mpr h2
    have e3 : (agg == "count") = false := beq_eq_false_iff_ne.mpr h3
    have e4 : (agg == "max") = false := beq_eq_false_iff_ne.mpr h4
    have e5 : (agg == "min") = false := beq_eq_false_iff_ne.mpr h5
    have hlb : aggFuncLookupBar agg = "sum" := by
      simp [aggFuncLookupBar, e1, e2, e3, e4, e5]
    have hsum : aggFuncLookupBar "sum" = "sum" := rfl
    rcases hchart with h | h <;> subst h <;>
      simp [getAggregatedData, prepareBarLineData, e3, hlb, hsum]
  · intro t x y agg hy h1 h2 h3
    have e1 : (agg == "sum") = false := beq_eq_false_iff_ne.mpr h1
    have e2 : (agg == "mean") = false := beq_eq_false_iff_ne.mpr h2
    have e3 : (agg == "count") = false := beq_eq_false_iff_ne.mpr h3
    have hlp : aggFuncLookupPie agg = "sum" := by
      simp [aggFuncLookupPie, e1, e2, e3]
    have hsum : aggFuncLookupPie "sum" = "sum" := rfl
    simp [getAggregatedData, preparePieData, hy, e3, hlp, hsum]

/-- C10 witness: `median` on bar and `max` on pie-with-y produce exactly the
`sum` payloads on the scenario table. -/
theorem c10_witness :
    getAggregatedData regionSalesTable "region" (some "sales") "bar" "median" =
      getAggregatedData regionSalesTable "region" (some "sales") "bar" "sum" ∧
    getAggregatedData regionSalesTable "region" (some "sales") "pie" "max" =
      getAggregatedData regionSalesTable "region" (some "sales") "pie" "sum" :=
  ⟨c10_unknown_aggregation_is_sum.1 regionSalesTable "region" (some "sales") "bar" "median"
      (Or.inl rfl) (by decide) (by decide) (by decide) (by decide) (by decide),
   c10_unknown_aggregation_is_sum.2 regionSalesTable "region" (some "sales") "max"
      rfl (by decide) (by decide) (by decide)⟩

/-- Validation step of `get_aggregated_data` for bar/line requests whose
columns check out. -/
theorem getAgg_barLine (t : Table) (x : String) (y : Option String) (chart agg : String)
    (hchart : chart = "bar" ∨ chart = "line")
    (hasx : t.hasCol x = true)
    (hy : optTruthy y = false ∨ t.hasCol (y.getD "") = true) :
    getAggregatedData t x y chart agg = prepareBarLineData t x y agg := by
  rcases hchart with h | h <;> subst h <;>
    rcases hy with h | h <;> simp [getAggregatedData, hasx, h]

/-- C3 (amended): with aggregation `count` the value of each group is its
row count and a supplied y column distinct from x is ignored — the payload
equals the one with y omitted — and omitting y is not an error: the
no-y request succeeds with one label per distinct x key and group sizes as
values.  (A y equal to x is an error — see the counterexample.) -/
theorem c3_count_ignores_y_axis :
    (∀ (t : Table) (x y chart : String),
      (chart = "bar" ∨ chart = "line") → t.hasCol y = true → y ≠ x →
      getAggregatedData t x (some y) chart "count" = getAggregatedData t x none chart "count") ∧
    (∀ (t : Table) (x : String) (xs : List Val),
      t.colValues x = some xs → valsComparable (groupKeys xs) = true →
      ∃ ks : List Val,
        getAggregatedData t x none "bar" "count" =
          .ok (ChartData.barLine (ks.map Val.pyStr)
                (ks.map fun k => Val.num (.int (groupSize xs k)))
                (ks.zip (ks.map fun k => Val.num (.int (groupSize xs k))))) ∧
        ks.length = (groupKeys xs).length ∧
        List.Sorted valLeP ks ∧
        (∀ k ∈ ks, k ∈ xs ∧ k.isNull = false) ∧
        (∀ v ∈ xs, v.isNull = false → ks.any (fun k => k.pyEq v) = true)) := by
  constructor
  · intro t x y chart hchart hasy hxy
    by_cases hasx : t.hasCol x = true
    · have h1 := getAgg_barLine t x (some y) chart "count"
        hchart hasx (Or.inr (by simpa using hasy))
      have h2 := getAgg_barLine t x none chart "count"
        hchart hasx (Or.inl rfl)
      rw [h1, h2]
      have hys : ((some y : Option String) == some x) = false := by
        simp [hxy]
      have hns : ((none : Option String) == some x) = false := rfl
      simp only [prepareBarLineData, barLineCount]
      rw [hys, hns]
      rfl
    · have hx' : t.hasCol x = false := by simpa using hasx
      rcases hchart with h | h <;> subst h <;> simp [getAggregatedData, hx']
  · intro t x xs hx hcomp
    have hasx := hasCol_of_colValues hx
    have hga : getAggregatedData t x none "bar" "count" = prepareBarLineData t x none "count" :=
      getAgg_barLine t x none "bar" "count" (Or.inl rfl) hasx (Or.inl rfl)
    refine ⟨sortKeys (groupKeys xs), ?_, length_sortKeys _, sorted_sortKeys _, ?_, ?_⟩
    · rw [hga]
      simp only [prepareBarLineData, barLineCount, hx, hcomp]
      rfl
    · intro k hk
      exact mem_groupKeys (mem_sortKeys.mp hk)
    · intro v hv hn
      rcases groupKeys_covers hv hn with ⟨k, hk, hkv⟩
      rw [List.any_eq_true]
      exact ⟨k, mem_sortKeys.mpr hk, hkv⟩

/-- C3 witness: on the scenario table, `count` with y = sales equals `count`
with no y, and the no-y payload groups by distinct region values. -/
theorem c3_witness :
    getAggregatedData regionSalesTable "region" (some "sales") "bar" "count" =
      getAggregatedData regionSalesTable "region" none "bar" "count" ∧
    ∃ ks : List Val,
      getAggregatedData regionSalesTable "region" none "bar" "count" =
        .ok (ChartData.barLine (ks.map Val.pyStr)
              (ks.map fun k => Val.num (.int (groupSize regionXs k)))
              (ks.zip (ks.map fun k => Val.num (.int (groupSize regionXs k))))) ∧
      ks.length = (groupKeys regionXs).length :=
  ⟨c3_count_ignores_y_axis.1 regionSalesTable "region" "sales" "bar" (Or.inl rfl) rfl
      (by decide),
   match c3_count_ignores_y_axis.2 regionSalesTable "region" regionXs rfl rfl with
   | ⟨ks, h1, h2, _, _, _⟩ => ⟨ks, h1, h2⟩⟩

/-- A table with a single string column named `a`, used to exhibit the
`y_axis = x_axis` failures. -/
def dupAxisTable : Table := ⟨2, [⟨"a", Dtype.object, [.str "u", .str "v"]⟩]⟩

/-- C3 counterexample: the claim says supplying any existing y column with
aggregation `count` gives the same labels/values as omitting y and is not
an error; for y = x (an existing column) the `reset_index(name=y_axis)`
call collides with the index name and pandas raises, while the no-y
request succeeds. -/
theorem c3_counterexample :
    getAggregatedData dupAxisTable "a" (some "a") "bar" "count" =
      .error "ValueError: cannot insert column, already exists" ∧
    getAggregatedData dupAxisTable "a" none "bar" "count" =
      .ok (ChartData.barLine ["u", "v"] [Val.num (.int 1), Val.num (.int 1)]
            [(Val.str "u", Val.num (.int 1)), (Val.str "v", Val.num (.int 1))]) :=
  ⟨rfl, rfl⟩

/-- C1 (amended): a bar/line request whose x and y name existing, distinct
columns and whose aggregation is sum/mean/max/min groups the rows by x
value, aggregates y within each group, and orders the groups ascending by
the x key: the labels are the stringified keys in that order, the values
the per-group aggregates in the same order; on the scenario table with
sum the payload is labels ["N", "S"], values [15, 20].  (y equal to x is
an error — see the counterexample.) -/
theorem c1_bar_line_group_sort_aggregate :
    (∀ (t : Table) (x y chart agg : String) (xs ys : List Val),
      (chart = "bar" ∨ chart = "line") →
      t.colValues x = some xs → t.colValues y = some ys → y ≠ x →
      (agg = "sum" ∨ agg = "mean" ∨ agg = "max" ∨ agg = "min") →
      (∀ v ∈ ys, v.isNull = true ∨ v.isNum = true) →
      valsComparable (groupKeys xs) = true →
      ∃ ks : List Val,
        getAggregatedData t x (some y) chart agg =
          .ok (ChartData.barLine (ks.map Val.pyStr)
                (ks.map fun k => aggValue agg (groupYs xs ys k))
                (ks.zip (ks.map fun k => aggValue agg (groupYs xs ys k)))) ∧
        List.Sorted valLeP ks ∧
        List.Pairwise (fun a b => a.pyEq b = false) ks ∧
        (∀ k ∈ ks, k ∈ xs ∧ k.isNull = false) ∧
        (∀ v ∈ xs, v.isNull = false → ks.any (fun k => k.pyEq v) = true)) ∧
    getAggregatedData regionSalesTable "region" (some "sales") "bar" "sum" =
      .ok (ChartData.barLine ["N", "S"] [Val.num (.int 15), Val.num (.int 20)]
            [(Val.str "N", Val.num (.int 15)), (Val.str "S", Val.num (.int 20))]) := by
  constructor
  · intro t x y chart agg xs ys hchart hx hy hxy hagg hynum hcomp
    have hasx := hasCol_of_colValues hx
    have hasy := hasCol_of_colValues hy
    have hga : getAggregatedData t x (some y) chart agg = prepareBarLineData t x (some y) agg :=
      getAgg_barLine t x (some y) chart agg hchart hasx (Or.inr (by simpa using hasy))
    have e3 : (agg == "count") = false := by
      rcases hagg with h | h | h | h <;> subst h <;> rfl
    have hlb : aggFuncLookupBar agg = agg := by
      rcases hagg with h | h | h | h <;> subst h <;> rfl
    have hyx : (y == x) = false := beq_eq_false_iff_ne.mpr hxy
    have hmap : exceptMap (fun k => aggNums agg (groupYs xs ys k)) (sortKeys (groupKeys xs)) =
        .ok ((sortKeys (groupKeys xs)).map (fun k => aggValue agg (groupYs xs ys k))) :=
      exceptMap_ok (fun k _ => aggNums_ok (fun v hv => hynum v (mem_groupYs hv)))
    refine ⟨sortKeys (groupKeys xs), ?_, sorted_sortKeys _,
      pairwise_sortKeys (groupKeys_pairwise xs), ?_, ?_⟩
    · rw [hga]
      simp only [prepareBarLineData, e3, Bool.false_eq_true, if_false, hlb,
        barLineAggCore, hx, hy, hyx, hcomp]
      rw [hmap]
      rfl
    · intro k hk
      exact mem_groupKeys (mem_sortKeys.mp hk)
    · intro v hv hn
      rcases groupKeys_covers hv hn with ⟨k, hk, hkv⟩
      rw [List.any_eq_true]
      exact ⟨k, mem_sortKeys.mpr hk, hkv⟩
  · rfl

/-- C1 witness: the general bar/line theorem applied to the scenario table
with aggregation sum. -/
theorem c1_witness :
    ∃ ks : List Val,
      getAggregatedData regionSalesTable "region" (some "sales") "bar" "sum" =
        .ok (ChartData.barLine (ks.map Val.pyStr)
              (ks.map fun k => aggValue "sum" (groupYs regionXs regionYs k))
              (ks.zip (ks.map fun k => aggValue "sum" (groupYs regionXs regionYs k)))) ∧
      List.Sorted valLeP ks :=
  match c1_bar_line_group_sort_aggregate.1 regionSalesTable "region" "sales" "bar" "sum"
      regionXs regionYs (Or.inl rfl) rfl rfl (by decide) (Or.inl rfl) (by decide) rfl with
  | ⟨ks, h1, h2, _, _, _⟩ => ⟨ks, h1, h2⟩

/-- C1 counterexample: the claim covers every request whose x and y name
existing columns, but y = x (an existing column) makes
`groupby(x)[y].agg(...).reset_index()` collide with the index name and
pandas raises instead of producing the grouped payload. -/
theorem c1_counterexample :
    getAggregatedData dupAxisTable "a" (some "a") "bar" "sum" =
      .error "ValueError: cannot insert column, already exists" := rfl

/-- Numeric value of a numeric cell (0 on the other constructors, which the
scatter theorem's hypotheses exclude). -/
def ratOfVal : Val → Rat
  | .num n => n.toRat
  | _ => 0

/-- C4 (amended): a scatter request over existing, distinct numeric columns
drops exactly the rows where either value is missing and emits `data` as
float-cast {x, y} pairs in original row order; the parallel
`x_values`/`y_values` hold the raw remaining values — they are NOT cast to
floating point (only the pairs inside `data` are). -/
theorem c4_scatter_raw_values (t : Table) (x y : String) (xs ys : List Val)
    (hx : t.colValues x = some xs) (hy : t.colValues y = some ys) (hxy : y ≠ x)
    (hxnum : ∀ v ∈ xs, v.isNull = true ∨ v.isNum = true)
    (hynum : ∀ v ∈ ys, v.isNull = true ∨ v.isNum = true) :
    getAggregatedData t x (some y) "scatter" "sum" =
      .ok (ChartData.scatter
            ((cleanPairs xs ys).map (fun p => (ratOfVal p.1, ratOfVal p.2)))
            ((cleanPairs xs ys).map Prod.fst)
            ((cleanPairs xs ys).map Prod.snd)) := by
  have hasx := hasCol_of_colValues hx
  have hasy := hasCol_of_colValues hy
  have hga : getAggregatedData t x (some y) "scatter" "sum" = prepareScatterData t x (some y) := by
    simp [getAggregatedData, hasx, hasy]
  have hyx : (y == x) = false := beq_eq_false_iff_ne.mpr hxy
  have hclean : ∀ p ∈ cleanPairs xs ys, p.1.isNum = true ∧ p.2.isNum = true := by
    intro p hp
    have h2 := List.mem_filter.mp hp
    have hz := List.of_mem_zip (by
      have : (p.1, p.2) = p := rfl
      rw [this]
      exact h2.1)
    have hb := h2.2
    simp only [Bool.and_eq_true, Bool.not_eq_true'] at hb
    constructor
    · rcases hxnum p.1 hz.1 with h | h
      · rw [h] at hb; exact absurd hb.1 (by simp)
      · exact h
    · rcases hynum p.2 hz.2 with h | h
      · rw [h] at hb; exact absurd hb.2 (by simp)
      · exact h
  have hmap : exceptMap (fun p => do
        let a ← Val.toFloatE p.1
        let b ← Val.toFloatE p.2
        pure (a, b)) (cleanPairs xs ys) =
      .ok ((cleanPairs xs ys).map (fun p => (ratOfVal p.1, ratOfVal p.2))) := by
    refine exceptMap_ok ?_
    intro p hp
    obtain ⟨pa, pb⟩ := p
    rcases hclean _ hp with ⟨h1, h2⟩
    cases pa with
    | num n1 =>
      cases pb with
      | num n2 => rfl
      | null => simp [Val.isNum] at h2
      | str s => simp [Val.isNum] at h2
    | null => simp [Val.isNum] at h1
    | str s => simp [Val.isNum] at h1
  rw [hga]
  simp only [prepareScatterData, hx, hy, hyx]
  rw [hmap]
  rfl

/-- C4 witness columns: an int x column with one missing value. -/
def scatterXs : List Val := [.num (.int 1), .null, .num (.int 3)]

/-- C4 witness columns: an int y column. -/
def scatterYs : List Val := [.num (.int 4), .num (.int 5), .num (.int 6)]

/-- C4 witness table. -/
def scatterTable : Table :=
  ⟨3, [⟨"a", Dtype.numeric, scatterXs⟩, ⟨"b", Dtype.numeric, scatterYs⟩]⟩

/-- C4 witness: on int columns with one null x, the null row is dropped,
`data` holds the float pairs, and `x_values`/`y_values` keep the raw
(integer) values. -/
theorem c4_witness :
    getAggregatedData scatterTable "a" (some "b") "scatter" "sum" =
      .ok (ChartData.scatter
            ((cleanPairs scatterXs scatterYs).map (fun p => (ratOfVal p.1, ratOfVal p.2)))
            ((cleanPairs scatterXs scatterYs).map Prod.fst)
            ((cleanPairs scatterXs scatterYs).map Prod.snd)) :=
  c4_scatter_raw_values scatterTable "a" "b" scatterXs scatterYs rfl rfl (by decide)
    (by decide) (by decide)

/-- A one-column table with a null, the spec's own scatter scenario input. -/
def scatterNullTable : Table :=
  ⟨3, [⟨"sales", Dtype.numeric, [.num (.int 10), .null, .num (.int 5)]⟩]⟩

/-- C4 counterexample: the claim covers every scatter request whose axes
name existing columns — including the spec's own scenario x = y = sales —
but `df[[x, x]]` duplicates the column and `float(row[x])` then receives a
two-element Series: pandas raises instead of emitting the payload. -/
theorem c4_counterexample :
    getAggregatedData scatterNullTable "sales" (some "sales") "scatter" "sum" =
      .error "TypeError: cannot convert the series to float" := rfl
